import Mathlib

/-!
Verification of the foreign-function bridge in `geth-utils/lib/lib.go`
(repository `fluentlabs-xyz/zkevm-circuits`).

The bridge exposes `CreateTrace` (decode a `TraceConfig` JSON payload, run the
external tracer `gethutil.Trace`, re-encode the results with
`json.MarshalIndent`) and `FreeString` (release a string previously returned by
`CreateTrace`), plus a standalone `main` self-test that traces an embedded
fixture configuration and panics on any failure.

The external collaborators (`json.Unmarshal` for `TraceConfig`,
`gethutil.Trace`, `json.MarshalIndent`) are not part of the file under
verification; they are passed in as an environment `GoEnv`, and — where a claim
needs their concrete behaviour — modelled from the specification (those
definitions carry a `Modelled from the spec:` doc comment).
-/

set_option autoImplicit false

namespace GethUtils

/-- A JSON value.  Used to model JSON payloads crossing the bridge. -/
inductive Json where
  | str : String → Json
  | num : Nat → Json
  | bool : Bool → Json
  | null : Json
  | arr : List Json → Json
  | obj : List (String × Json) → Json
deriving Repr, Inhabited

/-- Escape a character for inclusion in a JSON string literal. -/
def Json.escapeChar (c : Char) : String :=
  if c = '"' then "\\\"" else if c = '\\' then "\\\\" else String.singleton c

/-- Escape a string for inclusion in a JSON string literal. -/
def Json.escape (s : String) : String :=
  String.join (s.data.map Json.escapeChar)

/-- The indentation produced by `json.MarshalIndent(v, "", "  ")` at `depth`. -/
def indentOf (depth : Nat) : String :=
  String.join (List.replicate depth "  ")

mutual

/-- Render a JSON value the way Go's `json.MarshalIndent(v, "", "  ")` lays it
out: nested values indented by two spaces per level. -/
def Json.renderIndent (depth : Nat) : Json → String
  | .str s => "\"" ++ Json.escape s ++ "\""
  | .num n => toString n
  | .bool b => cond b "true" "false"
  | .null => "null"
  | .arr [] => "[]"
  | .arr (x :: xs) =>
    "[\n" ++ renderItems (depth + 1) (x :: xs) ++ "\n" ++ indentOf depth ++ "]"
  | .obj [] => "\x7b\x7d"
  | .obj (kv :: kvs) =>
    "\x7b\n" ++ renderFields (depth + 1) (kv :: kvs) ++ "\n" ++ indentOf depth ++ "\x7d"

/-- Render the comma-separated elements of a JSON array. -/
def renderItems (depth : Nat) : List Json → String
  | [] => ""
  | [x] => indentOf depth ++ Json.renderIndent depth x
  | x :: y :: xs =>
    indentOf depth ++ Json.renderIndent depth x ++ ",\n" ++ renderItems depth (y :: xs)

/-- Render the comma-separated fields of a JSON object. -/
def renderFields (depth : Nat) : List (String × Json) → String
  | [] => ""
  | [(k, v)] => indentOf depth ++ "\"" ++ Json.escape k ++ "\": " ++ Json.renderIndent depth v
  | (k, v) :: kv :: kvs =>
    indentOf depth ++ "\"" ++ Json.escape k ++ "\": " ++ Json.renderIndent depth v ++ ",\n" ++
      renderFields depth (kv :: kvs)

end

/-- Block constants of a `TraceConfig` (`block_constants` object of the
configuration JSON): coinbase, timestamp, number, difficulty, gas limit and
base fee, all carried as hex-encoded strings. -/
structure BlockConstants where
  coinbase : String
  timestamp : String
  number : String
  difficulty : String
  gas_limit : String
  base_fee : String
deriving Repr, DecidableEq

/-- An account state of a `TraceConfig` (`accounts` map of the configuration
JSON): address, nonce, balance, code, and the storage key/value pairs. -/
structure Account where
  address : String
  nonce : String
  balance : String
  code : String
  storage : List (String × String)
deriving Repr, DecidableEq

/-- A transaction of a `TraceConfig` (`transactions` array of the configuration
JSON).  The access list's element shape is owned by the external library, so
its entries are kept as opaque JSON values. -/
structure Transaction where
  from_ : String
  to_ : String
  nonce : String
  gas_limit : String
  value : String
  gas_price : String
  gas_fee_cap : String
  gas_tip_cap : String
  call_data : String
  access_list : List Json
  v : Nat
  r : String
  s : String
deriving Repr

/-- Logger configuration flags of a `TraceConfig` (`logger_config` object of
the configuration JSON). -/
structure LoggerConfig where
  EnableMemory : Bool
  DisableStack : Bool
  DisableStorage : Bool
  EnableReturnData : Bool
deriving Repr, DecidableEq

/-- The `gethutil.TraceConfig` deserialization target: chain identifier,
historical block hashes, block constants, account states, transactions, and
logger flags (§3 of the specification; field names follow the JSON keys of the
embedded fixture). -/
structure TraceConfig where
  chain_id : String
  history_hashes : List String
  block_constants : BlockConstants
  accounts : List (String × Account)
  transactions : List Transaction
  logger_config : LoggerConfig
deriving Repr

/-- The external collaborators of the bridge, bundled as an environment:
`json.Unmarshal` specialised to `TraceConfig`, the tracer `gethutil.Trace`, and
`json.MarshalIndent` specialised to `[]ExecutionResult`.  `R` stands for
`gethutil.ExecutionResult`, whose shape is owned by the external library.
Go's `(value, err)` returns are modelled as `Except`. -/
structure GoEnv (R : Type) where
  unmarshalConfig : String → Except String TraceConfig
  trace : TraceConfig → Except String (List R)
  marshalIndentResults : List R → Except String String

/-- Error message context of the decode-failure branch of `CreateTrace`. -/
def errUnmarshal : String := "Failed to unmarshal config, err: "

/-- Error message context of the tracer-failure branch of `CreateTrace`. -/
def errRunTrace : String := "Failed to run Trace, err: "

/-- Error message context of the encode-failure branch of `CreateTrace`. -/
def errMarshalResults : String := "Failed to marshal []ExecutionResult, err: "

/-- The body of `CreateTrace` from `lib.go`, at the level of Go strings: decode
the configuration, run the tracer, pretty-print the results; each failing step
returns its context message with the error appended (`fmt.Sprintf` with `%v`).
The C-string boundary (`C.GoString` on the input, `C.CString` on each return)
is modelled separately by `CreateTraceC`. -/
def CreateTrace {R : Type} (env : GoEnv R) (configStr : String) : String :=
  match env.unmarshalConfig configStr with
  | .error err => errUnmarshal ++ err
  | .ok config =>
    match env.trace config with
    | .error err => errRunTrace ++ err
    | .ok executionResults =>
      match env.marshalIndentResults executionResults with
      | .error err => errMarshalResults ++ err
      | .ok bytes => bytes

end GethUtils

namespace GethUtils

/-- The embedded self-test configuration JSON of `main` in `lib.go`, verbatim:
chain id `0x53a`, two accounts (`0x...cafe222` funded with no code,
`0x...cafe111` carrying embedded bytecode), and one transaction from the former
to the latter. -/
def fixtureJson : String :=
  "\x7b\"chain_id\":\"0x53a\",\"history_hashes\":[],\"block_constants\":\x7b\"coinbase\":\"0x0000000000000000000000000000000000000000\",\"timestamp\":\"0x75bcd15\",\"number\":\"0xcafe\",\"difficulty\":\"0x200000\",\"gas_limit\":\"0x2386f26fc10000\",\"base_fee\":\"0x0\"\x7d,\"accounts\":\x7b\"0x000000000000000000000000000000000cafe222\":\x7b\"address\":\"0x000000000000000000000000000000000cafe222\",\"nonce\":\"0x0\",\"balance\":\"0x8ac7230489e80000\",\"code\":\"0x\",\"storage\":\x7b\x7d\x7d,\"0x000000000000000000000000000000000cafe111\":\x7b\"address\":\"0x000000000000000000000000000000000cafe111\",\"nonce\":\"0x0\",\"balance\":\"0x8ac7230489e80000\",\"code\":\"0x0061736d0100000001080260017f00600000029f010803656e76095f65766d5f73746f70000103656e760c5f65766d5f61646472657373000003656e760b5f65766d5f63616c6c6572000003656e760d5f65766d5f6761736c696d6974000003656e760c5f65766d5f62617365666565000003656e760f5f65766d5f646966666963756c7479000003656e760b5f65766d5f6f726967696e000003656e76135f65766d5f63616c6c5f646174615f73697a650000030201000503010001071102046d61696e0008066d656d6f727902000a0a0108004100100510000b\",\"storage\":\x7b\x7d\x7d\x7d,\"transactions\":[\x7b\"from\":\"0x000000000000000000000000000000000cafe222\",\"to\":\"0x000000000000000000000000000000000cafe111\",\"nonce\":\"0x0\",\"gas_limit\":\"0xf4240\",\"value\":\"0x0\",\"gas_price\":\"0x1\",\"gas_fee_cap\":\"0x0\",\"gas_tip_cap\":\"0x0\",\"call_data\":\"0x\",\"access_list\":[],\"v\":0,\"r\":\"0x0\",\"s\":\"0x0\"\x7d],\"logger_config\":\x7b\"EnableMemory\":true,\"DisableStack\":false,\"DisableStorage\":false,\"EnableReturnData\":true\x7d\x7d"

/-- A C heap, modelling the allocations made with `C.CString` and released with
`C.free`: the next fresh address and the live blocks (address paired with the
string stored there).  Address `0` plays the role of the null pointer, so a
well-formed heap hands out addresses starting at `1`. -/
structure Heap where
  nextPtr : Nat
  blocks : List (Nat × String)
deriving Repr, DecidableEq

/-- The empty C heap. -/
def Heap.empty : Heap := ⟨1, []⟩

/-- `C.CString`: allocate a fresh block holding `s` and return its address. -/
def Heap.cString (h : Heap) (s : String) : Heap × Nat :=
  (⟨h.nextPtr + 1, (h.nextPtr, s) :: h.blocks⟩, h.nextPtr)

/-- The string stored at address `p`, if `p` is a live allocation. -/
def Heap.contentAt (h : Heap) (p : Nat) : Option String :=
  (h.blocks.find? (fun b => b.1 == p)).map Prod.snd

/-- `C.free`: releasing a live allocation removes its block; freeing an address
that is not a live allocation is undefined behaviour, modelled as `none`. -/
def Heap.free (h : Heap) (p : Nat) : Option Heap :=
  if h.blocks.any (fun b => b.1 == p) then
    some ⟨h.nextPtr, h.blocks.filter (fun b => b.1 != p)⟩
  else none

/-- The exported `CreateTrace` at the C boundary: every branch of the Go
function returns `C.CString` of the string it computed, so the call allocates
the result of `CreateTrace` on the C heap and returns the fresh address
(`configStr` is the Go string that `C.GoString` read from the caller's
buffer). -/
def CreateTraceC {R : Type} (env : GoEnv R) (h : Heap) (configStr : String) : Heap × Nat :=
  h.cString (CreateTrace env configStr)

/-- The exported `FreeString` from `lib.go`: `C.free` on the given address. -/
def FreeString (h : Heap) (str : Nat) : Option Heap :=
  h.free str

/-- Outcome of running the process entry point `main`: either a normal exit
that printed a string, or a `panic` aborting the process with an error. -/
inductive GoExit where
  | ok : String → GoExit
  | panicked : String → GoExit
deriving Repr

/-- The process entry point `main` from `lib.go`: unmarshal the embedded
fixture configuration, trace it, pretty-print the execution results; each
failing step panics with its error, and success prints the JSON. -/
def mainGo {R : Type} (env : GoEnv R) : GoExit :=
  match env.unmarshalConfig fixtureJson with
  | .error err => .panicked err
  | .ok config =>
    match env.trace config with
    | .error err => .panicked err
    | .ok executionResults =>
      match env.marshalIndentResults executionResults with
      | .error err => .panicked err
      | .ok bytes => .ok bytes

end GethUtils

namespace GethUtils

/-- The single transaction of the embedded fixture: a transfer from account
`0x...cafe222` to the contract account `0x...cafe111`, values transcribed from
the fixture JSON. -/
def fixtureTransaction : Transaction :=
  ⟨"0x000000000000000000000000000000000cafe222", "0x000000000000000000000000000000000cafe111",
   "0x0", "0xf4240", "0x0", "0x1", "0x0", "0x0", "0x", [], 0, "0x0", "0x0"⟩

/-- Modelled from the spec: the structured `gethutil.TraceConfig` value that
`json.Unmarshal` produces from `fixtureJson` (the `gethutil` package is not
under `src/`; field values are transcribed from the embedded fixture JSON,
with the accounts map in its textual order). -/
def fixtureConfig : TraceConfig where
  chain_id := "0x53a"
  history_hashes := []
  block_constants :=
    ⟨"0x0000000000000000000000000000000000000000", "0x75bcd15", "0xcafe",
      "0x200000", "0x2386f26fc10000", "0x0"⟩
  accounts :=
    [("0x000000000000000000000000000000000cafe222",
      ⟨"0x000000000000000000000000000000000cafe222", "0x0", "0x8ac7230489e80000", "0x", []⟩),
     ("0x000000000000000000000000000000000cafe111",
      ⟨"0x000000000000000000000000000000000cafe111", "0x0", "0x8ac7230489e80000",
        "0x0061736d0100000001080260017f00600000029f010803656e76095f65766d5f73746f70000103656e760c5f65766d5f61646472657373000003656e760b5f65766d5f63616c6c6572000003656e760d5f65766d5f6761736c696d6974000003656e760c5f65766d5f62617365666565000003656e760f5f65766d5f646966666963756c7479000003656e760b5f65766d5f6f726967696e000003656e76135f65766d5f63616c6c5f646174615f73697a650000030201000503010001071102046d61696e0008066d656d6f727902000a0a0108004100100510000b",
        []⟩)]
  transactions := [fixtureTransaction]
  logger_config := ⟨true, false, false, true⟩

end GethUtils

namespace GethUtils

/-- Read a JSON value as a string. -/
def Json.asStr : Json → Except String String
  | .str s => .ok s
  | _ => .error "expected JSON string"

/-- Read a JSON value as a number. -/
def Json.asNum : Json → Except String Nat
  | .num n => .ok n
  | _ => .error "expected JSON number"

/-- Read a JSON value as a boolean. -/
def Json.asBool : Json → Except String Bool
  | .bool b => .ok b
  | _ => .error "expected JSON boolean"

/-- Read a JSON value as an array. -/
def Json.asArr : Json → Except String (List Json)
  | .arr xs => .ok xs
  | _ => .error "expected JSON array"

/-- Read a JSON value as an object. -/
def Json.asObj : Json → Except String (List (String × Json))
  | .obj kvs => .ok kvs
  | _ => .error "expected JSON object"

/-- Look a field up in a decoded JSON object. -/
def getField (kvs : List (String × Json)) (k : String) : Except String Json :=
  match kvs.find? (fun kv => kv.1 == k) with
  | some kv => .ok kv.2
  | none => .error ("missing field " ++ k)

/-- Modelled from the spec: the JSON encoding of `BlockConstants` used by the
external `gethutil`/`encoding/json` layer (keys as in the embedded fixture). -/
def encodeBlockConstants (b : BlockConstants) : Json :=
  .obj [("coinbase", .str b.coinbase), ("timestamp", .str b.timestamp),
        ("number", .str b.number), ("difficulty", .str b.difficulty),
        ("gas_limit", .str b.gas_limit), ("base_fee", .str b.base_fee)]

/-- Modelled from the spec: the JSON decoding of `BlockConstants`. -/
def decodeBlockConstants (j : Json) : Except String BlockConstants := do
  let kvs ← j.asObj
  let coinbase ← (← getField kvs "coinbase").asStr
  let timestamp ← (← getField kvs "timestamp").asStr
  let number ← (← getField kvs "number").asStr
  let difficulty ← (← getField kvs "difficulty").asStr
  let gas_limit ← (← getField kvs "gas_limit").asStr
  let base_fee ← (← getField kvs "base_fee").asStr
  return ⟨coinbase, timestamp, number, difficulty, gas_limit, base_fee⟩

/-- Modelled from the spec: the JSON encoding of an account's storage map. -/
def encodeStorage (st : List (String × String)) : Json :=
  .obj (st.map (fun kv => (kv.1, .str kv.2)))

/-- Modelled from the spec: the JSON decoding of an account's storage map. -/
def decodeStorage (j : Json) : Except String (List (String × String)) := do
  let kvs ← j.asObj
  kvs.mapM (fun kv => (kv.2.asStr).map (fun v => (kv.1, v)))

/-- Modelled from the spec: the JSON encoding of `Account`. -/
def encodeAccount (a : Account) : Json :=
  .obj [("address", .str a.address), ("nonce", .str a.nonce),
        ("balance", .str a.balance), ("code", .str a.code),
        ("storage", encodeStorage a.storage)]

/-- Modelled from the spec: the JSON decoding of `Account`. -/
def decodeAccount (j : Json) : Except String Account := do
  let kvs ← j.asObj
  let address ← (← getField kvs "address").asStr
  let nonce ← (← getField kvs "nonce").asStr
  let balance ← (← getField kvs "balance").asStr
  let code ← (← getField kvs "code").asStr
  let storage ← decodeStorage (← getField kvs "storage")
  return ⟨address, nonce, balance, code, storage⟩

/-- Modelled from the spec: the JSON encoding of `Transaction`. -/
def encodeTransaction (t : Transaction) : Json :=
  .obj [("from", .str t.from_), ("to", .str t.to_), ("nonce", .str t.nonce),
        ("gas_limit", .str t.gas_limit), ("value", .str t.value),
        ("gas_price", .str t.gas_price), ("gas_fee_cap", .str t.gas_fee_cap),
        ("gas_tip_cap", .str t.gas_tip_cap), ("call_data", .str t.call_data),
        ("access_list", .arr t.access_list), ("v", .num t.v),
        ("r", .str t.r), ("s", .str t.s)]

/-- Modelled from the spec: the JSON decoding of `Transaction`. -/
def decodeTransaction (j : Json) : Except String Transaction := do
  let kvs ← j.asObj
  let from_ ← (← getField kvs "from").asStr
  let to_ ← (← getField kvs "to").asStr
  let nonce ← (← getField kvs "nonce").asStr
  let gas_limit ← (← getField kvs "gas_limit").asStr
  let value ← (← getField kvs "value").asStr
  let gas_price ← (← getField kvs "gas_price").asStr
  let gas_fee_cap ← (← getField kvs "gas_fee_cap").asStr
  let gas_tip_cap ← (← getField kvs "gas_tip_cap").asStr
  let call_data ← (← getField kvs "call_data").asStr
  let access_list ← (← getField kvs "access_list").asArr
  let v ← (← getField kvs "v").asNum
  let r ← (← getField kvs "r").asStr
  let s ← (← getField kvs "s").asStr
  return ⟨from_, to_, nonce, gas_limit, value, gas_price, gas_fee_cap, gas_tip_cap,
          call_data, access_list, v, r, s⟩

/-- Modelled from the spec: the JSON encoding of `LoggerConfig`. -/
def encodeLoggerConfig (l : LoggerConfig) : Json :=
  .obj [("EnableMemory", .bool l.EnableMemory), ("DisableStack", .bool l.DisableStack),
        ("DisableStorage", .bool l.DisableStorage), ("EnableReturnData", .bool l.EnableReturnData)]

/-- Modelled from the spec: the JSON decoding of `LoggerConfig`. -/
def decodeLoggerConfig (j : Json) : Except String LoggerConfig := do
  let kvs ← j.asObj
  let em ← (← getField kvs "EnableMemory").asBool
  let ds ← (← getField kvs "DisableStack").asBool
  let dst ← (← getField kvs "DisableStorage").asBool
  let erd ← (← getField kvs "EnableReturnData").asBool
  return ⟨em, ds, dst, erd⟩

/-- Modelled from the spec: the JSON encoding of `gethutil.TraceConfig`
(`gethutil` is not under `src/`; the shape follows §3 of the specification and
the embedded fixture's keys). -/
def encodeTraceConfig (c : TraceConfig) : Json :=
  .obj [("chain_id", .str c.chain_id),
        ("history_hashes", .arr (c.history_hashes.map Json.str)),
        ("block_constants", encodeBlockConstants c.block_constants),
        ("accounts", .obj (c.accounts.map (fun kv => (kv.1, encodeAccount kv.2)))),
        ("transactions", .arr (c.transactions.map encodeTransaction)),
        ("logger_config", encodeLoggerConfig c.logger_config)]

/-- Modelled from the spec: the JSON decoding of `gethutil.TraceConfig`. -/
def decodeTraceConfig (j : Json) : Except String TraceConfig := do
  let kvs ← j.asObj
  let chain_id ← (← getField kvs "chain_id").asStr
  let history_hashes ← (← (← getField kvs "history_hashes").asArr).mapM Json.asStr
  let block_constants ← decodeBlockConstants (← getField kvs "block_constants")
  let accountsKvs ← (← getField kvs "accounts").asObj
  let accounts ← accountsKvs.mapM (fun kv => (decodeAccount kv.2).map (fun a => (kv.1, a)))
  let transactions ← (← (← getField kvs "transactions").asArr).mapM decodeTransaction
  let logger_config ← decodeLoggerConfig (← getField kvs "logger_config")
  return ⟨chain_id, history_hashes, block_constants, accounts, transactions, logger_config⟩

/-- Modelled from the spec: `gethutil.Trace` (not under `src/`) takes a
`TraceConfig` and returns an ordered sequence of per-transaction execution
results; the per-transaction result `traceTx` is owned by the external library
and left abstract. -/
def traceModel {R : Type} (traceTx : Transaction → R) (c : TraceConfig) : Except String (List R) :=
  .ok (c.transactions.map traceTx)

/-- Modelled from the spec: `json.MarshalIndent(executionResults, "", "  ")`
pretty-prints the execution results as a JSON array; each result's own JSON
shape `encR` is owned by the external library and left abstract. -/
def marshalIndentModel {R : Type} (encR : R → Json) (rs : List R) : Except String String :=
  .ok (Json.renderIndent 0 (.arr (rs.map encR)))

/-- Modelled from the spec: `json.Unmarshal` specialised to `TraceConfig`.
Text-level JSON parsing belongs to the standard library; this model covers the
one string the self-test path feeds it — the embedded fixture — and rejects
anything else. -/
def unmarshalModel (s : String) : Except String TraceConfig :=
  if s = fixtureJson then .ok fixtureConfig else .error "unsupported input"

/-- The environment of the standalone self-test path, with all three external
collaborators given by their spec models. -/
def selfTestEnv {R : Type} (traceTx : Transaction → R) (encR : R → Json) : GoEnv R :=
  ⟨unmarshalModel, traceModel traceTx, marshalIndentModel encR⟩

end GethUtils

namespace GethUtils

/-- An environment whose decoder fails on every input (all inputs malformed),
used to exercise the decode-failure branch. -/
def failUnmarshalEnv : GoEnv Nat :=
  ⟨fun _ => .error "invalid character 'n' looking for beginning of value",
   fun _ => .error "", fun _ => .ok ""⟩

/-- An environment whose tracer fails, used to exercise the tracer-failure
branch. -/
def failTraceEnv : GoEnv Nat :=
  ⟨fun _ => .ok fixtureConfig, fun _ => .error "no contract code at given address",
   fun _ => .ok ""⟩

/-- An environment whose result encoder fails, used to exercise the
encode-failure branch. -/
def failMarshalEnv : GoEnv Nat :=
  ⟨fun _ => .ok fixtureConfig, fun _ => .ok [], fun _ => .error "json: unsupported type"⟩

/-- Two strings that differ at character index 10 never become equal by
appending suffixes: the failure contexts of `CreateTrace` share the first ten
characters `Failed to ` but diverge at index 10. -/
theorem context_append_ne (a b : String) (hab : a.data[10]? ≠ b.data[10]?)
    (ha : 10 < a.data.length) (hb : 10 < b.data.length) :
    ∀ r1 r2 : String, a ++ r1 ≠ b ++ r2 := by
  intro r1 r2 hEq
  have h1 : (a ++ r1).data = (b ++ r2).data := congrArg String.data hEq
  rw [String.data_append, String.data_append] at h1
  have h2 := congrArg (fun l => l[10]?) h1
  simp only [List.getElem?_append_left ha, List.getElem?_append_left hb] at h2
  exact hab h2

/-- No block keyed `p` survives filtering the blocks keyed `p` out. -/
theorem find?_key_filter_ne (l : List (Nat × String)) (p : Nat) :
    (l.filter (fun b => b.1 != p)).find? (fun b => b.1 == p) = none := by
  induction l with
  | nil => rfl
  | cons x xs ih =>
    by_cases hx : x.1 = p <;> simp [List.filter_cons, List.find?_cons, hx, ih]

/-- No block keyed `p` survives filtering the blocks keyed `p` out (for
`List.any`). -/
theorem any_key_filter_ne (l : List (Nat × String)) (p : Nat) :
    (l.filter (fun b => b.1 != p)).any (fun b => b.1 == p) = false := by
  induction l with
  | nil => rfl
  | cons x xs ih =>
    by_cases hx : x.1 = p <;> simp [List.filter_cons, hx, ih]

/-- Decoding the embedded fixture JSON under the modelled decoder yields the
transcribed fixture configuration. -/
theorem unmarshalModel_fixture :
    unmarshalModel fixtureJson = Except.ok fixtureConfig := if_pos rfl

/-- C1: for every input that decodes to a `TraceConfig` (and granting that the
external `json.MarshalIndent` only ever produces pretty-printed JSON arrays on
success), `CreateTrace` returns either such a well-formed JSON array or one of
the two textual error messages of the remaining failure branches — never
malformed output. -/
theorem createTrace_wellformed_or_error {R : Type} (env : GoEnv R) (s : String)
    (config : TraceConfig) (hok : env.unmarshalConfig s = .ok config)
    (hmarshal : ∀ rs out, env.marshalIndentResults rs = .ok out →
      ∃ js, out = Json.renderIndent 0 (Json.arr js)) :
    (∃ js, CreateTrace env s = Json.renderIndent 0 (Json.arr js)) ∨
    (∃ e, CreateTrace env s = errRunTrace ++ e ∨
          CreateTrace env s = errMarshalResults ++ e) := by
  cases htrace : env.trace config with
  | error e => exact Or.inr ⟨e, Or.inl (by simp [CreateTrace, hok, htrace])⟩
  | ok rs =>
    cases hm : env.marshalIndentResults rs with
    | error e => exact Or.inr ⟨e, Or.inr (by simp [CreateTrace, hok, htrace, hm])⟩
    | ok out =>
      obtain ⟨js, hjs⟩ := hmarshal rs out hm
      refine Or.inl ⟨js, ?_⟩
      rw [← hjs]
      simp [CreateTrace, hok, htrace, hm]

/-- C1, witness: the theorem applied to the self-test environment on the
embedded fixture JSON. -/
theorem createTrace_wellformed_or_error_witness :
    (∃ js, CreateTrace (selfTestEnv (fun _ => (0 : Nat)) (fun _ => Json.obj [])) fixtureJson =
        Json.renderIndent 0 (Json.arr js)) ∨
    (∃ e, CreateTrace (selfTestEnv (fun _ => (0 : Nat)) (fun _ => Json.obj [])) fixtureJson =
        errRunTrace ++ e ∨
      CreateTrace (selfTestEnv (fun _ => (0 : Nat)) (fun _ => Json.obj [])) fixtureJson =
        errMarshalResults ++ e) :=
  createTrace_wellformed_or_error (selfTestEnv (fun _ => (0 : Nat)) (fun _ => Json.obj []))
    fixtureJson fixtureConfig
    (by dsimp only [selfTestEnv]; exact unmarshalModel_fixture)
    (fun rs out hm => ⟨rs.map (fun _ => Json.obj []), (Except.ok.inj hm).symm⟩)

/-- C2: on any input the configuration decoder rejects, `CreateTrace` returns
the unmarshal-failure message, and the tracer is not invoked — the result does
not depend on the `trace` collaborator at all. -/
theorem createTrace_unmarshal_failure {R : Type} (env : GoEnv R) (s e : String)
    (h : env.unmarshalConfig s = .error e) :
    CreateTrace env s = errUnmarshal ++ e ∧
    ∀ tr : TraceConfig → Except String (List R),
      CreateTrace ⟨env.unmarshalConfig, tr, env.marshalIndentResults⟩ s = errUnmarshal ++ e := by
  constructor
  · simp [CreateTrace, h]
  · intro tr; simp [CreateTrace, h]

/-- C2, witness: the theorem applied to an environment whose decoder fails. -/
theorem createTrace_unmarshal_failure_witness :
    CreateTrace failUnmarshalEnv "not json" =
      errUnmarshal ++ "invalid character 'n' looking for beginning of value" :=
  (createTrace_unmarshal_failure failUnmarshalEnv "not json"
    "invalid character 'n' looking for beginning of value" rfl).1

/-- C3: each of the three failure classes of `CreateTrace` is reported the
same way — synchronously, as the call's return value, a human-readable message
made of the branch's context followed by the error, substituted for the
successful JSON payload; there is no retry and no separate error code. -/
theorem createTrace_failure_reporting {R : Type} (env : GoEnv R) (s : String) :
    (∀ e, env.unmarshalConfig s = .error e → CreateTrace env s = errUnmarshal ++ e) ∧
    (∀ c e, env.unmarshalConfig s = .ok c → env.trace c = .error e →
      CreateTrace env s = errRunTrace ++ e) ∧
    (∀ c rs e, env.unmarshalConfig s = .ok c → env.trace c = .ok rs →
      env.marshalIndentResults rs = .error e →
      CreateTrace env s = errMarshalResults ++ e) := by
  refine ⟨fun e he => ?_, fun c e hc ht => ?_, fun c rs e hc ht hm => ?_⟩
  · simp [CreateTrace, he]
  · simp [CreateTrace, hc, ht]
  · simp [CreateTrace, hc, ht, hm]

/-- C3, witness: the tracer-failure branch of the theorem, applied to an
environment whose tracer fails. -/
theorem createTrace_failure_reporting_witness :
    CreateTrace failTraceEnv "cfg" = errRunTrace ++ "no contract code at given address" :=
  (createTrace_failure_reporting failTraceEnv "cfg").2.1 fixtureConfig
    "no contract code at given address" rfl rfl

/-- C4: `CreateTrace` is deterministic with no shared mutable state between
calls — calling it twice in a row with the same input (the second call on the
heap left by the first) stores byte-identical strings at both returned
pointers, each equal to the one output `CreateTrace` computes for that
input. -/
theorem createTrace_idempotent {R : Type} (env : GoEnv R) (h : Heap) (s : String) :
    ((CreateTraceC env (CreateTraceC env h s).1 s).1).contentAt (CreateTraceC env h s).2 =
      some (CreateTrace env s) ∧
    ((CreateTraceC env (CreateTraceC env h s).1 s).1).contentAt
      (CreateTraceC env (CreateTraceC env h s).1 s).2 = some (CreateTrace env s) := by
  have hne : (h.nextPtr + 1 == h.nextPtr) = false := by simp
  simp [CreateTraceC, Heap.cString, Heap.contentAt, List.find?, hne]

/-- C5: on the embedded self-test configuration, `main` (with the external
collaborators given by their spec models) exits non-fatally and prints a
pretty-printed JSON array with exactly one execution-result entry — the
fixture has exactly one transaction, and the tracer produces one result per
transaction. -/
theorem main_selftest_single_result {R : Type} (traceTx : Transaction → R) (encR : R → Json) :
    ∃ j, mainGo (selfTestEnv traceTx encR) =
      GoExit.ok (Json.renderIndent 0 (Json.arr [j])) := by
  refine ⟨encR (traceTx fixtureTransaction), ?_⟩
  simp only [mainGo, selfTestEnv, unmarshalModel_fixture, traceModel, marshalIndentModel]
  rfl

/-- C6: encoding the self-test's fixed configuration to JSON and decoding that
JSON again reproduces the configuration field for field. -/
theorem fixtureConfig_roundtrip :
    decodeTraceConfig (encodeTraceConfig fixtureConfig) = Except.ok fixtureConfig := rfl

/-- C7: in the standalone self-test path, each of the three failure classes is
fatal — `main` panics with the error instead of returning it as a value. -/
theorem main_failure_fatal {R : Type} (env : GoEnv R) :
    (∀ e, env.unmarshalConfig fixtureJson = .error e → mainGo env = .panicked e) ∧
    (∀ c e, env.unmarshalConfig fixtureJson = .ok c → env.trace c = .error e →
      mainGo env = .panicked e) ∧
    (∀ c rs e, env.unmarshalConfig fixtureJson = .ok c → env.trace c = .ok rs →
      env.marshalIndentResults rs = .error e → mainGo env = .panicked e) := by
  refine ⟨fun e he => ?_, fun c e hc ht => ?_, fun c rs e hc ht hm => ?_⟩
  · simp [mainGo, he]
  · simp [mainGo, hc, ht]
  · simp [mainGo, hc, ht, hm]

/-- C7, witness: the encode-failure branch of the theorem, applied to an
environment whose result encoder fails. -/
theorem main_failure_fatal_witness :
    mainGo failMarshalEnv = GoExit.panicked "json: unsupported type" :=
  (main_failure_fatal failMarshalEnv).2.2 fixtureConfig [] "json: unsupported type" rfl rfl rfl

/-- C8: every string returned by `CreateTrace` is a fresh allocation that can
be released exactly once via `FreeString`: the first release succeeds and
removes the block, after which the pointer no longer resolves and a second
release is undefined behaviour (`none`). -/
theorem freeString_releases_once {R : Type} (env : GoEnv R) (h : Heap) (s : String) :
    ∃ h2, FreeString (CreateTraceC env h s).1 (CreateTraceC env h s).2 = some h2 ∧
      h2.contentAt (CreateTraceC env h s).2 = none ∧
      FreeString h2 (CreateTraceC env h s).2 = none := by
  refine ⟨⟨h.nextPtr + 1, h.blocks.filter (fun b => b.1 != h.nextPtr)⟩, ?_, ?_, ?_⟩
  · simp [FreeString, CreateTraceC, Heap.cString, Heap.free, List.filter_cons]
  · simp [CreateTraceC, Heap.cString, Heap.contentAt, find?_key_filter_ne]
  · simp [FreeString, CreateTraceC, Heap.cString, Heap.free, any_key_filter_ne]

/-- C9: `CreateTrace` is total — on every input and every behaviour of the
external collaborators it allocates and returns a non-null pointer to a
string, and that string comes from one of the four paths of the function
(decode failure, tracer failure, encode failure, or the successful payload). -/
theorem createTrace_total_nonnull {R : Type} (env : GoEnv R) (h : Heap) (s : String)
    (hwf : 0 < h.nextPtr) :
    (CreateTraceC env h s).2 ≠ 0 ∧
    ((CreateTraceC env h s).1).contentAt (CreateTraceC env h s).2 =
      some (CreateTrace env s) ∧
    ((∃ e, CreateTrace env s = errUnmarshal ++ e) ∨
     (∃ e, CreateTrace env s = errRunTrace ++ e) ∨
     (∃ e, CreateTrace env s = errMarshalResults ++ e) ∨
     (∃ c rs b, env.unmarshalConfig s = .ok c ∧ env.trace c = .ok rs ∧
       env.marshalIndentResults rs = .ok b ∧ CreateTrace env s = b)) := by
  refine ⟨?_, ?_, ?_⟩
  · simp only [CreateTraceC, Heap.cString]
    omega
  · simp [CreateTraceC, Heap.cString, Heap.contentAt]
  · cases hu : env.unmarshalConfig s with
    | error e => exact Or.inl ⟨e, by simp [CreateTrace, hu]⟩
    | ok c =>
      cases ht : env.trace c with
      | error e => exact Or.inr (Or.inl ⟨e, by simp [CreateTrace, hu, ht]⟩)
      | ok rs =>
        cases hm : env.marshalIndentResults rs with
        | error e => exact Or.inr (Or.inr (Or.inl ⟨e, by simp [CreateTrace, hu, ht, hm]⟩))
        | ok b =>
          exact Or.inr (Or.inr (Or.inr ⟨c, rs, b, rfl, ht, hm, by simp [CreateTrace, hu, ht, hm]⟩))

/-- C9, witness: the theorem applied to the empty heap and an environment
whose decoder fails. -/
theorem createTrace_total_nonnull_witness :
    (CreateTraceC failUnmarshalEnv Heap.empty "bad").2 ≠ 0 ∧
    ((CreateTraceC failUnmarshalEnv Heap.empty "bad").1).contentAt
      (CreateTraceC failUnmarshalEnv Heap.empty "bad").2 =
      some (CreateTrace failUnmarshalEnv "bad") ∧
    ((∃ e, CreateTrace failUnmarshalEnv "bad" = errUnmarshal ++ e) ∨
     (∃ e, CreateTrace failUnmarshalEnv "bad" = errRunTrace ++ e) ∨
     (∃ e, CreateTrace failUnmarshalEnv "bad" = errMarshalResults ++ e) ∨
     (∃ c rs b, failUnmarshalEnv.unmarshalConfig "bad" = .ok c ∧
       failUnmarshalEnv.trace c = .ok rs ∧
       failUnmarshalEnv.marshalIndentResults rs = .ok b ∧
       CreateTrace failUnmarshalEnv "bad" = b)) :=
  createTrace_total_nonnull failUnmarshalEnv Heap.empty "bad" (by decide)

/-- C10: each failure class of `CreateTrace` produces a string beginning with
its own fixed context, and the three contexts are pairwise non-confusable —
no string of one class ever equals a string of another, so the class is
recoverable from the returned string. -/
theorem createTrace_error_class_recoverable {R : Type} (env : GoEnv R) (s : String) :
    ((∀ e, env.unmarshalConfig s = .error e → ∃ r, CreateTrace env s = errUnmarshal ++ r) ∧
     (∀ c e, env.unmarshalConfig s = .ok c → env.trace c = .error e →
       ∃ r, CreateTrace env s = errRunTrace ++ r) ∧
     (∀ c rs e, env.unmarshalConfig s = .ok c → env.trace c = .ok rs →
       env.marshalIndentResults rs = .error e →
       ∃ r, CreateTrace env s = errMarshalResults ++ r)) ∧
    (∀ r1 r2 : String, errUnmarshal ++ r1 ≠ errRunTrace ++ r2) ∧
    (∀ r1 r2 : String, errUnmarshal ++ r1 ≠ errMarshalResults ++ r2) ∧
    (∀ r1 r2 : String, errRunTrace ++ r1 ≠ errMarshalResults ++ r2) := by
  refine ⟨⟨fun e he => ⟨e, by simp [CreateTrace, he]⟩,
          fun c e hc ht => ⟨e, by simp [CreateTrace, hc, ht]⟩,
          fun c rs e hc ht hm => ⟨e, by simp [CreateTrace, hc, ht, hm]⟩⟩,
         context_append_ne _ _ (by decide) (by decide) (by decide),
         context_append_ne _ _ (by decide) (by decide) (by decide),
         context_append_ne _ _ (by decide) (by decide) (by decide)⟩

/-- C10, witness: the tracer-failure class and one concrete non-confusion
instance, from the theorem applied to an environment whose tracer fails. -/
theorem createTrace_error_class_recoverable_witness :
    (∃ r, CreateTrace failTraceEnv "cfg" = errRunTrace ++ r) ∧
    errUnmarshal ++ "x" ≠ errRunTrace ++ "x" :=
  ⟨(createTrace_error_class_recoverable failTraceEnv "cfg").1.2.1 fixtureConfig
      "no contract code at given address" rfl rfl,
   (createTrace_error_class_recoverable failTraceEnv "cfg").2.1 "x" "x"⟩

end GethUtils
